import Mathlib

/-!
Shallow embedding of the xpendit expense-reporting backend.

Source files embedded here:
- `engine/models.py`   : dataclasses `Empleado`, `Gasto`
- `engine/policy.py`   : the `POLITICA` ruleset literal
- `engine/validator.py`: `validar_gasto`, the policy evaluation engine
- `analyze.py`         : the batch pipeline (`detectar_duplicados`,
  `detectar_negativos`, `fetch_tipos_cambio_agrupados_fecha`, `convertir_usd`,
  `_estado_por_antiguedad`, and the per-record loop of `main`)

Modelling conventions:
- calendar dates are day numbers (`Int`); the code only subtracts dates
  (`(today - gasto.fecha).days`), sorts them and uses them as dict keys;
- monetary values are exact rationals (`ℚ`).  Python mixes `Decimal` and
  `float`; both denote rational values.  The one claim that is about the
  binary64 representation itself is treated separately via `float64Exacto`;
- Python dicts are association lists (`List (key × value)`) or, for the
  per-date needs dict built in `main`, a key list plus a lookup function;
- statuses and alert codes are the literal strings the code uses.
-/

/-- From `engine/models.py`, dataclass `Empleado`. -/
structure Empleado where
  id : String
  nombre : String
  apellido : String
  cost_center : String
deriving DecidableEq, Repr

/-- From `engine/models.py`, dataclass `Gasto`.  The Python field `monto` is
annotated `float`; its value is modelled as an exact rational. -/
structure Gasto where
  id : String
  monto : ℚ
  moneda : String
  fecha : Int
  categoria : String
  empleado : Empleado
deriving DecidableEq, Repr

/-- An alert dict `{"codigo": ..., "mensaje": ...}` as built by the code. -/
structure Alerta where
  codigo : String
  mensaje : String
deriving DecidableEq, Repr

/-- The result dict returned by `validar_gasto` (and by the per-record step
of `analyze.main`): `{"gasto_id": ..., "status": ..., "alertas": [...]}`. -/
structure Resultado where
  gasto_id : String
  status : String
  alertas : List Alerta
deriving DecidableEq, Repr

/-- From `engine/policy.py`: the `"limite_antiguedad"` sub-dict. -/
structure LimiteAntiguedad where
  pendiente_dias : Int
  rechazado_dias : Int
deriving DecidableEq, Repr

/-- From `engine/policy.py`: one entry of the `"limites_por_categoria"` dict. -/
structure LimitesCategoria where
  aprobado_hasta : ℚ
  pendiente_hasta : ℚ
deriving DecidableEq, Repr

/-- From `engine/policy.py`: one entry of the `"reglas_centro_costo"` list. -/
structure ReglaCentroCosto where
  cost_center : String
  categoria_prohibida : String
deriving DecidableEq, Repr

/-- Shape of the `POLITICA` dict of `engine/policy.py`. -/
structure Politica where
  moneda_base : String
  limite_antiguedad : LimiteAntiguedad
  limites_por_categoria : List (String × LimitesCategoria)
  reglas_centro_costo : List ReglaCentroCosto
deriving DecidableEq, Repr

/-- From `engine/policy.py`, the `POLITICA` literal. -/
def POLITICA : Politica :=
  { moneda_base := "USD"
  , limite_antiguedad := { pendiente_dias := 30, rechazado_dias := 60 }
  , limites_por_categoria :=
      [ ("food", { aprobado_hasta := 100, pendiente_hasta := 150 })
      , ("transport", { aprobado_hasta := 200, pendiente_hasta := 200 }) ]
  , reglas_centro_costo :=
      [ { cost_center := "core_engineering", categoria_prohibida := "food" } ] }

/-- From `engine/validator.py` line 46: the hardcoded fallback conversion table
`{"CLP": 1/800, "MXN": 1/20, "EUR": 1/0.85}` (0.85 = 17/20, so 1/0.85 = 20/17). -/
def tasas_conversion : List (String × ℚ) :=
  [("CLP", 1/800), ("MXN", 1/20), ("EUR", 20/17)]

/-- Alert of rule 1 when the expense is older than `rechazado_dias`. -/
def alertaAntiguedadRechazado : Alerta :=
  { codigo := "LIMITE_ANTIGUEDAD"
  , mensaje := "Gasto excede los 60 días. No es reembolsable." }

/-- Alert of rule 1 when the expense is older than `pendiente_dias`. -/
def alertaAntiguedadPendiente : Alerta :=
  { codigo := "LIMITE_ANTIGUEDAD"
  , mensaje := "Gasto excede los 30 días. Requiere revisión." }

/-- Alert of rule 2 for a currency absent from `tasas_conversion`. -/
def alertaMonedaDesconocida (m : String) : Alerta :=
  { codigo := "MONEDA_DESCONOCIDA"
  , mensaje := s!"Moneda {m} desconocida, no se puede convertir a USD" }

/-- Alert of rule 2 when the amount exceeds `pendiente_hasta`. -/
def alertaCategoriaRechazado (c : String) : Alerta :=
  { codigo := "LIMITE_CATEGORIA"
  , mensaje := s!"El gasto de \x27{c}\x27 excede el límite permitido." }

/-- Alert of rule 2 when the amount exceeds `aprobado_hasta` only. -/
def alertaCategoriaPendiente (c : String) : Alerta :=
  { codigo := "LIMITE_CATEGORIA"
  , mensaje := s!"El gasto de \x27{c}\x27 excede el límite aprobado; requiere revisión." }

/-- Alert of rule 3 for a matching cost-center prohibition entry. -/
def alertaCentroCosto (cc : String) (c : String) : Alerta :=
  { codigo := "POLITICA_CENTRO_COSTO"
  , mensaje := s!"El C.C. \x27{cc}\x27 no puede reportar a \x27{c}\x27." }

/-- From `engine/validator.py` lines 16-35, rule 1 (expense age).  `today` is the
evaluation-time calendar date (`datetime.now().date()` in the code), passed
explicitly.  Returns the (statuses, alerts) this rule appends. -/
def regla_antiguedad (gasto : Gasto) (today : Int) : List String × List Alerta :=
  let diferencia_dias : Int := today - gasto.fecha
  let max_dias_pendientes := POLITICA.limite_antiguedad.pendiente_dias
  let max_dias_rechazados := POLITICA.limite_antiguedad.rechazado_dias
  if diferencia_dias > max_dias_rechazados then
    (["RECHAZADO"], [alertaAntiguedadRechazado])
  else if diferencia_dias > max_dias_pendientes then
    (["PENDIENTE"], [alertaAntiguedadPendiente])
  else
    (["APROBADO"], [])

/-- From `engine/validator.py` lines 56-83: the category-limit check applied to
the (possibly converted) USD amount `mnt_en_usd`.  Returns the (statuses,
alerts) this block appends. -/
def chequeo_categoria (categoria : String) (mnt_en_usd : ℚ) : List String × List Alerta :=
  match POLITICA.limites_por_categoria.lookup categoria with
  | some limites =>
    if mnt_en_usd > limites.pendiente_hasta then
      (["RECHAZADO"], [alertaCategoriaRechazado categoria])
    else if mnt_en_usd > limites.aprobado_hasta then
      (["PENDIENTE"], [alertaCategoriaPendiente categoria])
    else
      (["APROBADO"], [])
  | none => ([], [])

/-- From `engine/validator.py` lines 40-83, rule 2 (category limits, with the
engine-internal currency fallback).  When the currency is not the base and is
unknown to `tasas_conversion` the code appends PENDIENTE plus the
MONEDA_DESCONOCIDA alert and then still runs the category check with
`mnt_en_usd` left equal to the original `gasto.monto` (there is no skip). -/
def regla_categoria (gasto : Gasto) : List String × List Alerta :=
  if gasto.moneda ≠ POLITICA.moneda_base then
    match tasas_conversion.lookup gasto.moneda with
    | some tasa => chequeo_categoria gasto.categoria (gasto.monto * tasa)
    | none =>
      let resto := chequeo_categoria gasto.categoria gasto.monto
      ("PENDIENTE" :: resto.1, alertaMonedaDesconocida gasto.moneda :: resto.2)
  else
    chequeo_categoria gasto.categoria gasto.monto

/-- From `engine/validator.py` lines 88-97, rule 3 (cost-center prohibitions):
one RECHAZADO suggestion and one alert per matching entry, in list order. -/
def regla_centro_costo (gasto : Gasto) : List String × List Alerta :=
  POLITICA.reglas_centro_costo.foldl
    (fun acc regla =>
      if gasto.empleado.cost_center = regla.cost_center ∧
         gasto.categoria = regla.categoria_prohibida then
        (acc.1 ++ ["RECHAZADO"], acc.2 ++ [alertaCentroCosto regla.cost_center gasto.categoria])
      else acc)
    ([], [])

/-- The `estados`/`alertas` accumulation of `engine/validator.py` lines
10-97: the three rules run in order, each appending to both lists; no rule
reads the lists, so the result is the concatenation in rule order. -/
def reglas_sugerencias (gasto : Gasto) (today : Int) : List String × List Alerta :=
  let r1 := regla_antiguedad gasto today
  let r2 := regla_categoria gasto
  let r3 := regla_centro_costo gasto
  (r1.1 ++ r2.1 ++ r3.1, r1.2 ++ r2.2 ++ r3.2)

/-- From `engine/validator.py` lines 99-107: final status selection by priority
over the collected `estados` (Python `in` is list membership). -/
def estado_final_de (estados : List String) : String :=
  if "RECHAZADO" ∈ estados then "RECHAZADO"
  else if "PENDIENTE" ∈ estados then "PENDIENTE"
  else if "APROBADO" ∈ estados then "APROBADO"
  else "PENDIENTE"

/-- From `engine/validator.py`, `validar_gasto` (with `datetime.now().date()`
made an explicit `today` parameter). -/
def validar_gasto (gasto : Gasto) (today : Int) : Resultado :=
  let r := reglas_sugerencias gasto today
  { gasto_id := gasto.id, status := estado_final_de r.1, alertas := r.2 }

/-- Severity order used by the spec: RECHAZADO > PENDIENTE > APROBADO. -/
def severidad : String → Nat
  | "RECHAZADO" => 2
  | "PENDIENTE" => 1
  | _ => 0

/-- Round-half-even to an integer, as Python's `round` does on the exact
value of its argument. -/
def redondeoMedioPar (q : ℚ) : Int :=
  let f : Int := ⌊q⌋
  let r : ℚ := q - f
  if r < 1/2 then f
  else if 1/2 < r then f + 1
  else if f % 2 = 0 then f else f + 1

/-- From `analyze.py` line 143: the grouping key
`(f"{round(gs.monto, 2):.2f}", gs.moneda, gs.fecha.isoformat())`, modelled as
the amount in rounded cents (the 2-decimal formatted string determines and is
determined by that integer), the currency and the date. -/
def clave_duplicado (gs : Gasto) : Int × String × Int :=
  (redondeoMedioPar (gs.monto * 100), gs.moneda, gs.fecha)

/-- From `analyze.py`, `detectar_duplicados` (the `dup_ids` component): ids of the
records whose grouping key is shared by at least two records. -/
def detectar_duplicados (gastos : List Gasto) : List String :=
  ((gastos.filter
      (fun gs => 2 ≤ (gastos.filter (fun h => clave_duplicado h = clave_duplicado gs)).length)).map
    Gasto.id)

/-- From `analyze.py`, `detectar_negativos`: ids of records with `monto < 0`. -/
def detectar_negativos (gastos : List Gasto) : List String :=
  (gastos.filter (fun gs => gs.monto < 0)).map Gasto.id

/-- From `analyze.py` `main` lines 387-390: the non-USD filter used to build
`needed_by_date` (`if gs.moneda and gs.moneda != "USD"`; the empty string is
falsy in Python). -/
def es_no_usd (gs : Gasto) : Bool := gs.moneda ≠ "" ∧ gs.moneda ≠ "USD"

/-- The keys of the `needed_by_date` dict built in `main`: the distinct
dates of non-USD records. -/
def fechas_no_usd (gastos : List Gasto) : List Int :=
  ((gastos.filter es_no_usd).map Gasto.fecha).dedup

/-- The value of the `needed_by_date` dict at a date: the distinct non-USD
currencies of the records with that date. -/
def monedas_no_usd (gastos : List Gasto) (d : Int) : List String :=
  (((gastos.filter es_no_usd).filter (fun gs => gs.fecha = d)).map Gasto.moneda).dedup

/-- One iteration body of `fetch_tipos_cambio_agrupados_fecha` for a date
with a non-empty symbol set: the external lookup (`_http_get_json` plus
`payload.get("rates")`) is the oracle `fetch`, returning `none` on a
transport/parse exception.  On success the code keeps, in symbol order, the
symbols present in the response (`raw_rates.get(sym)`, `None` skipped; the
`Decimal(str(val))` re-parse of an already-numeric value is the identity
here); on exception it records the empty dict for the date. -/
def entrada_fecha (fetch : Int → List String → Option (List (String × ℚ)))
    (monedas_necesarias : Int → List String) (d : Int) : Int × List (String × ℚ) :=
  let symbols := (monedas_necesarias d).insertionSort (· ≤ ·)
  match fetch d symbols with
  | some raw_rates =>
      (d, symbols.filterMap (fun sym => (raw_rates.lookup sym).map (fun v => (sym, v))))
  | none => (d, [])

/-- From `analyze.py`, `fetch_tipos_cambio_agrupados_fecha`: iterate the distinct
dates in ascending order; dates whose currency set is empty are skipped
before the request counter is touched (`if not symbols: continue`, and
sorting preserves emptiness); each processed date contributes one request
and one table entry.  The dict argument is given as its key list
(`needed_by_date.keys()`) plus its lookup function. -/
def fetch_tipos_cambio_agrupados_fecha
    (fetch : Int → List String → Option (List (String × ℚ)))
    (fechas_necesarias : List Int) (monedas_necesarias : Int → List String) :
    List (Int × List (String × ℚ)) × Nat :=
  (fechas_necesarias.insertionSort (· ≤ ·)).foldl
    (fun acc d =>
      if (monedas_necesarias d).isEmpty then acc
      else (acc.1 ++ [entrada_fecha fetch monedas_necesarias d], acc.2 + 1))
    ([], 0)

/-- From `analyze.py`, `convertir_usd`: base currency returns the amount
unchanged; otherwise `tasas_por_fecha.get(fecha) or {}` then a currency
lookup, with `rate is None or rate == 0` signalling unavailability. -/
def convertir_usd (monto : ℚ) (moneda : String) (fecha : Int)
    (tasas_por_fecha : List (Int × List (String × ℚ))) : Option ℚ :=
  if moneda = "USD" then some monto
  else
    let rates := (tasas_por_fecha.lookup fecha).getD []
    match rates.lookup moneda with
    | none => none
    | some rate => if rate = 0 then none else some (monto / rate)

/-- From `analyze.py`, `_estado_por_antiguedad`: the age-only fallback used when
no exchange rate is available. -/
def estado_por_antiguedad (fecha_gasto : Int) (hoy : Int) : String :=
  let dias := hoy - fecha_gasto
  if dias ≤ 30 then "APROBADO"
  else if dias ≤ 60 then "PENDIENTE"
  else "RECHAZADO"

/-- The `TASA_CAMBIO_NO_DISPONIBLE` alert built in `main` (the date is
rendered through its model representation). -/
def alertaTasaNoDisponible (m : String) (f : Int) : Alerta :=
  { codigo := "TASA_CAMBIO_NO_DISPONIBLE"
  , mensaje := s!"No se pudo obtener tasa para {m} en {f}." }

/-- The `DUPLICADO_EXACTO` alert appended by the anomaly-merge step. -/
def alertaDuplicado : Alerta :=
  { codigo := "DUPLICADO_EXACTO"
  , mensaje := "Posible gasto duplicado (monto, moneda y fecha coinciden con otro)." }

/-- The `MONTO_NEGATIVO` alert appended by the anomaly-merge step. -/
def alertaNegativo : Alerta :=
  { codigo := "MONTO_NEGATIVO"
  , mensaje := "El monto del gasto es negativo; dato sospechoso/erróneo." }

/-- From `analyze.py` `main` lines 404-432, the per-record evaluation before the
anomaly merge: convert to USD; if the record is non-USD and conversion is
unavailable, bypass the engine and build the degraded verdict (age fallback,
`APROBADO` demoted to `PENDIENTE`, single `TASA_CAMBIO_NO_DISPONIBLE`
alert); otherwise rebuild the record in USD and run `validar_gasto`. -/
def evaluar_registro (gs : Gasto) (hoy : Int)
    (tasas_por_fecha : List (Int × List (String × ℚ))) : Resultado :=
  let usd_amount := convertir_usd gs.monto gs.moneda gs.fecha tasas_por_fecha
  if gs.moneda ≠ "USD" ∧ usd_amount = none then
    let base_status := estado_por_antiguedad gs.fecha hoy
    { gasto_id := gs.id
    , status := if base_status ≠ "APROBADO" then base_status else "PENDIENTE"
    , alertas := [alertaTasaNoDisponible gs.moneda gs.fecha] }
  else
    let gs_usd : Gasto :=
      { id := gs.id, monto := usd_amount.getD gs.monto, moneda := "USD"
      , fecha := gs.fecha, categoria := gs.categoria, empleado := gs.empleado }
    validar_gasto gs_usd hoy

/-- From `analyze.py` `main` lines 434-455, the anomaly-merge step applied to one
record's result, with the two set-membership tests precomputed as booleans. -/
def merge_anomalias (es_dup : Bool) (es_neg : Bool) (result : Resultado) : Resultado :=
  let result :=
    if es_dup then
      let r := { result with alertas := result.alertas ++ [alertaDuplicado] }
      if r.status = "APROBADO" then { r with status := "PENDIENTE" } else r
    else result
  if es_neg then
    let r := { result with alertas := result.alertas ++ [alertaNegativo] }
    if r.status ≠ "RECHAZADO" then { r with status := "RECHAZADO" } else r
  else result

/-- One full iteration of the record loop of `main`: evaluation followed by
the anomaly merge (`gs.id in dup_ids`, `gs.id in neg_ids`). -/
def procesar_gasto (gs : Gasto) (hoy : Int)
    (tasas_por_fecha : List (Int × List (String × ℚ)))
    (dup_ids neg_ids : List String) : Resultado :=
  merge_anomalias (decide (gs.id ∈ dup_ids)) (decide (gs.id ∈ neg_ids))
    (evaluar_registro gs hoy tasas_por_fecha)

/-- From `analyze.py` `main` lines 401-458: the whole record loop, accumulating
`resultados` and `status_counts` (the counts dict modelled as a total
function; the code only ever increments the three keys it initialises, see
the status-invariant theorem). -/
def procesar_lote (gastos : List Gasto) (hoy : Int)
    (tasas_por_fecha : List (Int × List (String × ℚ))) :
    List Resultado × (String → Nat) :=
  let dups := detectar_duplicados gastos
  let negs := detectar_negativos gastos
  gastos.foldl
    (fun acc gs =>
      let r := procesar_gasto gs hoy tasas_por_fecha dups negs
      (acc.1 ++ [r], fun s => if s = r.status then acc.2 s + 1 else acc.2 s))
    ([], fun _ => 0)

/-- From `engine/models.py` line 17 (`monto: float`) and the `float(...)` casts of
`analyze.py` lines 128 and 426: the set of rational values a finite IEEE-754
binary64 can hold exactly (sign-and-significand times a power of two, with
the significand below 2^53). -/
def float64Exacto (q : ℚ) : Prop :=
  ∃ m : Int, ∃ e : Int, m.natAbs < 2 ^ 53 ∧ q = (m : ℚ) * (2 : ℚ) ^ e

def tresEstados : List String := ["APROBADO", "PENDIENTE", "RECHAZADO"]

lemma estado_final_mem_tres (l : List String) : estado_final_de l ∈ tresEstados := by
  unfold estado_final_de
  split_ifs <;> simp [tresEstados]

lemma regla_antiguedad_estados (g : Gasto) (t : Int) :
    (regla_antiguedad g t).1 = ["APROBADO"] ∨ (regla_antiguedad g t).1 = ["PENDIENTE"] ∨
      (regla_antiguedad g t).1 = ["RECHAZADO"] := by
  simp only [regla_antiguedad]
  split_ifs <;> simp

lemma chequeo_categoria_estados (c : String) (m : ℚ) :
    (chequeo_categoria c m).1 = [] ∨ (chequeo_categoria c m).1 = ["APROBADO"] ∨
      (chequeo_categoria c m).1 = ["PENDIENTE"] ∨ (chequeo_categoria c m).1 = ["RECHAZADO"] := by
  simp only [chequeo_categoria]
  rcases POLITICA.limites_por_categoria.lookup c with _ | lims
  · simp
  · simp only
    split_ifs <;> simp

lemma regla_categoria_estados (g : Gasto) (e : String) (he : e ∈ (regla_categoria g).1) :
    e ∈ tresEstados := by
  have hc := fun c m => chequeo_categoria_estados c m
  simp only [regla_categoria] at he
  split_ifs at he
  · rcases h2 : tasas_conversion.lookup g.moneda with _ | t <;> rw [h2] at he
    · simp only [List.mem_cons] at he
      rcases he with h | h
      · simp [tresEstados, h]
      · rcases hc g.categoria g.monto with h3 | h3 | h3 | h3 <;> rw [h3] at h <;>
          simp at h <;> simp [tresEstados, h]
    · rcases hc g.categoria (g.monto * t) with h3 | h3 | h3 | h3 <;> rw [h3] at he <;>
        simp at he <;> simp [tresEstados, he]
  · rcases hc g.categoria g.monto with h3 | h3 | h3 | h3 <;> rw [h3] at he <;>
      simp at he <;> simp [tresEstados, he]

lemma regla_centro_costo_estados (g : Gasto) (e : String) (he : e ∈ (regla_centro_costo g).1) :
    e = "RECHAZADO" := by
  simp only [regla_centro_costo, POLITICA, List.foldl] at he
  split_ifs at he <;> simp_all

lemma estados_mem_tres (g : Gasto) (t : Int) (e : String)
    (he : e ∈ (reglas_sugerencias g t).1) : e ∈ tresEstados := by
  simp only [reglas_sugerencias, List.mem_append] at he
  rcases he with (h | h) | h
  · rcases regla_antiguedad_estados g t with h2 | h2 | h2 <;> rw [h2] at h <;>
      simp at h <;> simp [tresEstados, h]
  · exact regla_categoria_estados g e h
  · rw [regla_centro_costo_estados g e h]; simp [tresEstados]

lemma estados_ne_nil (g : Gasto) (t : Int) : (reglas_sugerencias g t).1 ≠ [] := by
  simp only [reglas_sugerencias]
  rcases regla_antiguedad_estados g t with h | h | h <;> simp [h]

lemma severidad_le_two (s : String) : severidad s ≤ 2 := by
  unfold severidad
  split <;> omega

lemma estado_final_spec (l : List String) (hall : ∀ e ∈ l, e ∈ tresEstados) (hne : l ≠ []) :
    estado_final_de l ∈ l ∧ ∀ e ∈ l, severidad e ≤ severidad (estado_final_de l) := by
  unfold estado_final_de
  split_ifs with h1 h2 h3
  · exact ⟨h1, fun e _ => by simpa [severidad] using severidad_le_two e⟩
  · refine ⟨h2, fun e he => ?_⟩
    have h := hall e he
    simp only [tresEstados, List.mem_cons, List.not_mem_nil, or_false] at h
    rcases h with h | h | h <;> simp_all [severidad]
  · refine ⟨h3, fun e he => ?_⟩
    have h := hall e he
    simp only [tresEstados, List.mem_cons, List.not_mem_nil, or_false] at h
    rcases h with h | h | h <;> simp_all [severidad]
  · exfalso
    rcases List.exists_mem_of_ne_nil l hne with ⟨e, he⟩
    have h := hall e he
    simp only [tresEstados, List.mem_cons, List.not_mem_nil, or_false] at h
    rcases h with h | h | h <;> simp_all

lemma regla_antiguedad_codigos (g : Gasto) (t : Int) (a : Alerta)
    (ha : a ∈ (regla_antiguedad g t).2) : a.codigo = "LIMITE_ANTIGUEDAD" := by
  simp only [regla_antiguedad] at ha
  split_ifs at ha <;>
    simp_all [alertaAntiguedadRechazado, alertaAntiguedadPendiente]

lemma regla_antiguedad_len (g : Gasto) (t : Int) : (regla_antiguedad g t).2.length ≤ 1 := by
  simp only [regla_antiguedad]
  split_ifs <;> simp

lemma chequeo_categoria_codigos (c : String) (m : ℚ) (a : Alerta)
    (ha : a ∈ (chequeo_categoria c m).2) : a.codigo = "LIMITE_CATEGORIA" := by
  simp only [chequeo_categoria] at ha
  cases h2 : List.lookup c POLITICA.limites_por_categoria <;> rw [h2] at ha
  · simp at ha
  · simp only at ha
    split_ifs at ha <;>
      simp_all [alertaCategoriaRechazado, alertaCategoriaPendiente]

lemma chequeo_categoria_len (c : String) (m : ℚ) : (chequeo_categoria c m).2.length ≤ 1 := by
  simp only [chequeo_categoria]
  cases h2 : List.lookup c POLITICA.limites_por_categoria
  · simp
  · simp only
    split_ifs <;> simp

lemma regla_centro_costo_alertas (g : Gasto) :
    (regla_centro_costo g).2 =
      (POLITICA.reglas_centro_costo.filter
        (fun r => decide (g.empleado.cost_center = r.cost_center ∧
          g.categoria = r.categoria_prohibida))).map
        (fun r => alertaCentroCosto r.cost_center g.categoria) := by
  simp only [regla_centro_costo, POLITICA, List.foldl, List.filter, List.map]
  split_ifs with h <;> simp [h]

lemma evaluar_status_mem (gs : Gasto) (hoy : Int)
    (tasas : List (Int × List (String × ℚ))) :
    (evaluar_registro gs hoy tasas).status ∈ tresEstados := by
  simp only [evaluar_registro, estado_por_antiguedad]
  split_ifs <;>
    first
      | simpa [validar_gasto] using estado_final_mem_tres (reglas_sugerencias _ hoy).1
      | simp [tresEstados]

lemma merge_status_mem (d n : Bool) (res : Resultado) (h : res.status ∈ tresEstados) :
    (merge_anomalias d n res).status ∈ tresEstados := by
  simp only [merge_anomalias]
  split_ifs <;> simp_all [tresEstados]

/-- Claim C2: the age rule rejects strictly beyond 60 days with a
LIMITE_ANTIGUEDAD alert, suggests PENDIENTE with a LIMITE_ANTIGUEDAD alert
strictly beyond 30 days, and otherwise suggests APROBADO with no alert; at
exactly 30 days it is APROBADO and at exactly 60 days it is PENDIENTE. -/
theorem claim_C2_regla_antiguedad (g : Gasto) (t : Int) :
    POLITICA.limite_antiguedad = { pendiente_dias := 30, rechazado_dias := 60 } ∧
    (t - g.fecha > 60 →
      regla_antiguedad g t = (["RECHAZADO"], [alertaAntiguedadRechazado])) ∧
    (30 < t - g.fecha ∧ t - g.fecha ≤ 60 →
      regla_antiguedad g t = (["PENDIENTE"], [alertaAntiguedadPendiente])) ∧
    (t - g.fecha ≤ 30 → regla_antiguedad g t = (["APROBADO"], [])) ∧
    (t - g.fecha = 30 → regla_antiguedad g t = (["APROBADO"], [])) ∧
    (t - g.fecha = 60 → regla_antiguedad g t = (["PENDIENTE"], [alertaAntiguedadPendiente])) := by
  refine ⟨rfl, ?_, ?_, ?_, ?_, ?_⟩ <;> intro h <;>
    simp only [regla_antiguedad, POLITICA] <;> split_ifs <;>
    first
      | rfl
      | (exfalso; omega)

def empleadoVentas : Empleado :=
  { id := "e_sales", nombre := "John", apellido := "Doe", cost_center := "sales_team" }

def gastoUSD : Gasto :=
  { id := "g_usd", monto := 80, moneda := "USD", fecha := 0, categoria := "food"
  , empleado := empleadoVentas }

/-- Witness for C2 at concrete ages 61, 30 and 60 days. -/
theorem claim_C2_regla_antiguedad_witness :
    regla_antiguedad gastoUSD 61 = (["RECHAZADO"], [alertaAntiguedadRechazado]) ∧
    regla_antiguedad gastoUSD 30 = (["APROBADO"], []) ∧
    regla_antiguedad gastoUSD 60 = (["PENDIENTE"], [alertaAntiguedadPendiente]) :=
  ⟨(claim_C2_regla_antiguedad gastoUSD 61).2.1 (by decide),
   (claim_C2_regla_antiguedad gastoUSD 30).2.2.2.2.1 (by decide),
   (claim_C2_regla_antiguedad gastoUSD 60).2.2.2.2.2 (by decide)⟩

/-- Claim C3: the final status is a suggested status of maximal severity
(RECHAZADO > PENDIENTE > APROBADO), and the selection applied to an empty
suggestion list yields PENDIENTE, never APROBADO. -/
theorem claim_C3_estado_final (g : Gasto) (t : Int) :
    (validar_gasto g t).status ∈ (reglas_sugerencias g t).1 ∧
    (∀ e ∈ (reglas_sugerencias g t).1,
      severidad e ≤ severidad ((validar_gasto g t).status)) ∧
    estado_final_de [] = "PENDIENTE" := by
  have h := estado_final_spec (reglas_sugerencias g t).1
    (fun e he => estados_mem_tres g t e he) (estados_ne_nil g t)
  exact ⟨h.1, h.2, rfl⟩

/-- Witness for C3 at a concrete expense. -/
theorem claim_C3_estado_final_witness :
    (validar_gasto gastoUSD 0).status ∈ (reglas_sugerencias gastoUSD 0).1 ∧
    severidad "APROBADO" ≤ severidad ((validar_gasto gastoUSD 0).status) :=
  ⟨(claim_C3_estado_final gastoUSD 0).1,
   (claim_C3_estado_final gastoUSD 0).2.1 "APROBADO" (by decide)⟩

/-- Claim C9: the age rule always contributes a suggestion, so the suggested
status list is never empty, every suggestion is one of APROBADO, PENDIENTE,
RECHAZADO, the engine's final status is one of those three, and so is the
status of every record produced by the batch loop, hence the status-count
table keyed by those three values never sees another status. -/
theorem claim_C9_solo_tres_estados (g : Gasto) (t hoy : Int)
    (tasas : List (Int × List (String × ℚ))) (dups negs : List String) :
    (reglas_sugerencias g t).1 ≠ [] ∧
    (∀ e ∈ (reglas_sugerencias g t).1, e ∈ tresEstados) ∧
    (validar_gasto g t).status ∈ tresEstados ∧
    (procesar_gasto g hoy tasas dups negs).status ∈ tresEstados := by
  refine ⟨estados_ne_nil g t, fun e he => estados_mem_tres g t e he, ?_, ?_⟩
  · simpa [validar_gasto] using estado_final_mem_tres (reglas_sugerencias g t).1
  · exact merge_status_mem _ _ _ (evaluar_status_mem g hoy tasas)

/-- Witness for C9 at a concrete expense. -/
theorem claim_C9_solo_tres_estados_witness :
    (reglas_sugerencias gastoUSD 0).1 ≠ [] ∧
    "APROBADO" ∈ tresEstados ∧
    (procesar_gasto gastoUSD 0 [] ["g_usd"] []).status ∈ tresEstados :=
  ⟨(claim_C9_solo_tres_estados gastoUSD 0 0 [] [] []).1,
   (claim_C9_solo_tres_estados gastoUSD 0 0 [] [] []).2.1 "APROBADO" (by decide),
   (claim_C9_solo_tres_estados gastoUSD 0 0 [] ["g_usd"] []).2.2.2⟩

/-- Claim C4: the anomaly-merge step appends DUPLICADO_EXACTO for duplicate
ids and demotes only APROBADO to PENDIENTE; appends MONTO_NEGATIVO for
negative ids and forces RECHAZADO; and never moves a status toward APROBADO. -/
theorem claim_C4_merge_anomalias (res : Resultado) (d n : Bool) :
    (merge_anomalias d n res).alertas =
      res.alertas ++ (if d then [alertaDuplicado] else []) ++
        (if n then [alertaNegativo] else []) ∧
    (n = true → (merge_anomalias d n res).status = "RECHAZADO") ∧
    (d = true → n = false → (merge_anomalias d n res).status =
      (if res.status = "APROBADO" then "PENDIENTE" else res.status)) ∧
    (d = false → n = false → merge_anomalias d n res = res) ∧
    severidad res.status ≤ severidad (merge_anomalias d n res).status := by
  refine ⟨?_, ?_, ?_, ?_, ?_⟩
  · cases d <;> cases n <;> simp only [merge_anomalias] <;> split_ifs <;> simp_all
  · intro hn
    subst hn
    cases d <;> simp only [merge_anomalias] <;> split_ifs <;> simp_all
  · intro hd hn
    subst hd
    subst hn
    simp only [merge_anomalias]
    split_ifs <;> simp_all
  · intro hd hn
    subst hd
    subst hn
    simp [merge_anomalias]
  · cases d <;> cases n <;> simp only [merge_anomalias] <;> split_ifs <;>
      first
        | exact le_rfl
        | exact severidad_le_two _
        | simp_all [severidad]

/-- Witness for C4 on a concrete APROBADO result with both flags set. -/
theorem claim_C4_merge_anomalias_witness :
    (merge_anomalias true true { gasto_id := "g", status := "APROBADO", alertas := [] }).alertas =
      [] ++ [alertaDuplicado] ++ [alertaNegativo] ∧
    (merge_anomalias true true { gasto_id := "g", status := "APROBADO", alertas := [] }).status =
      "RECHAZADO" ∧
    (merge_anomalias true false { gasto_id := "g", status := "APROBADO", alertas := [] }).status =
      "PENDIENTE" ∧
    merge_anomalias false false { gasto_id := "g", status := "APROBADO", alertas := [] } =
      { gasto_id := "g", status := "APROBADO", alertas := [] } := by
  have h1 := claim_C4_merge_anomalias { gasto_id := "g", status := "APROBADO", alertas := [] } true true
  have h2 := claim_C4_merge_anomalias { gasto_id := "g", status := "APROBADO", alertas := [] } true false
  have h3 := claim_C4_merge_anomalias { gasto_id := "g", status := "APROBADO", alertas := [] } false false
  refine ⟨by simpa using h1.1, h1.2.1 rfl, ?_, h3.2.2.2.1 rfl rfl⟩
  have := h2.2.2.1 rfl rfl
  simpa using this

/-- Claim C6: for a non-base-currency record with no usable rate the pipeline
bypasses the engine and emits the single TASA_CAMBIO_NO_DISPONIBLE alert with
status PENDIENTE unless the age fallback says RECHAZADO; conversion is
unavailable exactly when the rate is absent or zero; base-currency records
convert to themselves whatever the rate table is. -/
theorem claim_C6_tasa_no_disponible (gs : Gasto) (hoy : Int)
    (tasas : List (Int × List (String × ℚ))) :
    (gs.moneda ≠ "USD" → convertir_usd gs.monto gs.moneda gs.fecha tasas = none →
      evaluar_registro gs hoy tasas =
        { gasto_id := gs.id
        , status := if estado_por_antiguedad gs.fecha hoy = "RECHAZADO"
                    then "RECHAZADO" else "PENDIENTE"
        , alertas := [alertaTasaNoDisponible gs.moneda gs.fecha] }) ∧
    (gs.moneda ≠ "USD" →
      (convertir_usd gs.monto gs.moneda gs.fecha tasas = none ↔
        ((tasas.lookup gs.fecha).getD []).lookup gs.moneda = none ∨
        ((tasas.lookup gs.fecha).getD []).lookup gs.moneda = some 0)) ∧
    (∀ (m : ℚ) (f : Int) (t2 : List (Int × List (String × ℚ))),
      convertir_usd m "USD" f t2 = some m) := by
  refine ⟨?_, ?_, ?_⟩
  · intro h1 h2
    simp only [evaluar_registro]
    rw [if_pos ⟨h1, h2⟩]
    simp only [estado_por_antiguedad]
    split_ifs <;> simp_all
  · intro h1
    simp only [convertir_usd, if_neg h1]
    cases hr : (List.lookup gs.fecha tasas).getD [] |>.lookup gs.moneda with
    | none => simp
    | some r =>
      simp only
      split_ifs with h0
      · simp [h0]
      · simp [h0]
  · intro m f t2
    simp [convertir_usd]

def gastoCLP : Gasto :=
  { id := "g_clp", monto := 100, moneda := "CLP", fecha := -70, categoria := "food"
  , empleado := empleadoVentas }

/-- Witness for C6: a CLP record with an empty rate table, 70 days old. -/
theorem claim_C6_tasa_no_disponible_witness :
    evaluar_registro gastoCLP 0 [] =
      { gasto_id := "g_clp"
      , status := if estado_por_antiguedad (-70) 0 = "RECHAZADO"
                  then "RECHAZADO" else "PENDIENTE"
      , alertas := [alertaTasaNoDisponible "CLP" (-70)] } ∧
    (convertir_usd 100 "CLP" (-70) [] = none ↔
      (([] : List (String × ℚ)).lookup "CLP" = none ∨
        (([] : List (String × ℚ)).lookup "CLP" = some 0))) ∧
    convertir_usd 5 "USD" 0 [] = some 5 := by
  have h := claim_C6_tasa_no_disponible gastoCLP 0 []
  exact ⟨h.1 (by decide) (by rfl), h.2.1 (by decide), h.2.2 5 0 []⟩

/-- Claim C8: the engine and the batch loop are pure functions of their
inputs (with the evaluation date made explicit), so identical inputs give
identical verdicts, result lists and status counts. -/
theorem claim_C8_determinismo :
    (∀ (g g' : Gasto) (t t' : Int), g = g' → t = t' →
      validar_gasto g t = validar_gasto g' t') ∧
    (∀ (l l' : List Gasto) (hoy : Int) (tasas : List (Int × List (String × ℚ))),
      l = l' → procesar_lote l hoy tasas = procesar_lote l' hoy tasas) :=
  ⟨fun _ _ _ _ hg ht => by rw [hg, ht], fun _ _ _ _ hl => by rw [hl]⟩

/-- Witness for C8 at concrete inputs. -/
theorem claim_C8_determinismo_witness :
    validar_gasto gastoUSD 0 = validar_gasto gastoUSD 0 ∧
    procesar_lote [gastoUSD, gastoCLP] 0 [] = procesar_lote [gastoUSD, gastoCLP] 0 [] :=
  ⟨claim_C8_determinismo.1 gastoUSD gastoUSD 0 0 rfl rfl,
   claim_C8_determinismo.2 [gastoUSD, gastoCLP] [gastoUSD, gastoCLP] 0 [] rfl⟩

lemma count_map_codigo_eq_zero (l : List Alerta) (c : String)
    (h : ∀ a ∈ l, a.codigo ≠ c) : (l.map Alerta.codigo).count c = 0 := by
  rw [List.count_eq_zero]
  simp only [List.mem_map, not_exists]
  rintro a ⟨ha, hc⟩
  exact h a ha hc

lemma regla_centro_costo_codigos (g : Gasto) (a : Alerta)
    (ha : a ∈ (regla_centro_costo g).2) : a.codigo = "POLITICA_CENTRO_COSTO" := by
  rw [regla_centro_costo_alertas] at ha
  simp only [List.mem_map] at ha
  rcases ha with ⟨r, _, rfl⟩
  rfl

def gastoMonedaDesconocida : Gasto :=
  { id := "g_ars", monto := 200, moneda := "ARS", fecha := 0, categoria := "food"
  , empleado := empleadoVentas }

/-- Counterexample to claim C1 as stated: for an unknown-currency expense the
code does NOT skip the category check; with currency ARS, amount 200 and
category food it emits a LIMITE_CATEGORIA alert and a RECHAZADO suggestion in
addition to the MONEDA_DESCONOCIDA alert. -/
theorem claim_C1_counterexample :
    gastoMonedaDesconocida.moneda ≠ POLITICA.moneda_base ∧
    tasas_conversion.lookup gastoMonedaDesconocida.moneda = none ∧
    "LIMITE_CATEGORIA" ∈ (validar_gasto gastoMonedaDesconocida 0).alertas.map Alerta.codigo ∧
    "RECHAZADO" ∈ (reglas_sugerencias gastoMonedaDesconocida 0).1 ∧
    (validar_gasto gastoMonedaDesconocida 0).status = "RECHAZADO" := by
  refine ⟨by decide, by rfl, by decide, by decide, by decide⟩

/-- Claim C1 as amended: for an unknown-currency expense the engine suggests
PENDIENTE and emits exactly one MONEDA_DESCONOCIDA alert, but the category
check still runs on the original unconverted amount and can add its own
suggestion and LIMITE_CATEGORIA alert. -/
theorem claim_C1_amended (g : Gasto) (t : Int)
    (h1 : g.moneda ≠ POLITICA.moneda_base)
    (h2 : tasas_conversion.lookup g.moneda = none) :
    "PENDIENTE" ∈ (reglas_sugerencias g t).1 ∧
    ((validar_gasto g t).alertas.map Alerta.codigo).count "MONEDA_DESCONOCIDA" = 1 ∧
    regla_categoria g =
      ("PENDIENTE" :: (chequeo_categoria g.categoria g.monto).1,
        alertaMonedaDesconocida g.moneda :: (chequeo_categoria g.categoria g.monto).2) ∧
    (∀ lims, POLITICA.limites_por_categoria.lookup g.categoria = some lims →
      lims.pendiente_hasta < g.monto →
      "LIMITE_CATEGORIA" ∈ (validar_gasto g t).alertas.map Alerta.codigo) := by
  have hreg : regla_categoria g =
      ("PENDIENTE" :: (chequeo_categoria g.categoria g.monto).1,
        alertaMonedaDesconocida g.moneda :: (chequeo_categoria g.categoria g.monto).2) := by
    simp only [regla_categoria, h2]
    rw [if_pos h1]
  refine ⟨?_, ?_, hreg, ?_⟩
  · simp [reglas_sugerencias, hreg]
  · have halertas : (validar_gasto g t).alertas =
        (regla_antiguedad g t).2 ++
          (alertaMonedaDesconocida g.moneda :: (chequeo_categoria g.categoria g.monto).2) ++
          (regla_centro_costo g).2 := by
      simp [validar_gasto, reglas_sugerencias, hreg]
    rw [halertas]
    simp only [List.map_append, List.map_cons, List.count_append, List.count_cons]
    rw [count_map_codigo_eq_zero _ _
        (fun a ha => by rw [regla_antiguedad_codigos g t a ha]; decide),
      count_map_codigo_eq_zero _ _
        (fun a ha => by rw [chequeo_categoria_codigos g.categoria g.monto a ha]; decide),
      count_map_codigo_eq_zero _ _
        (fun a ha => by rw [regla_centro_costo_codigos g a ha]; decide)]
    simp [alertaMonedaDesconocida]
  · intro lims hl hm
    have hcheq : chequeo_categoria g.categoria g.monto =
        (["RECHAZADO"], [alertaCategoriaRechazado g.categoria]) := by
      simp only [chequeo_categoria, hl]
      rw [if_pos hm]
    simp [validar_gasto, reglas_sugerencias, hreg, hcheq, alertaCategoriaRechazado]

/-- Witness for the amended C1 at the concrete ARS/200/food expense. -/
theorem claim_C1_amended_witness :
    "PENDIENTE" ∈ (reglas_sugerencias gastoMonedaDesconocida 0).1 ∧
    ((validar_gasto gastoMonedaDesconocida 0).alertas.map Alerta.codigo).count
      "MONEDA_DESCONOCIDA" = 1 ∧
    "LIMITE_CATEGORIA" ∈ (validar_gasto gastoMonedaDesconocida 0).alertas.map Alerta.codigo := by
  have h := claim_C1_amended gastoMonedaDesconocida 0 (by decide) (by rfl)
  exact ⟨h.1, h.2.1, h.2.2.2 { aprobado_hasta := 100, pendiente_hasta := 150 }
    (by rfl) (by norm_num [gastoMonedaDesconocida])⟩

def gastoDobleAlerta : Gasto :=
  { id := "g_dbl", monto := 120, moneda := "XYZ", fecha := 0, categoria := "food"
  , empleado := empleadoVentas }

/-- Counterexample to claim C10 as stated: rule 2 can emit two alerts for one
expense (MONEDA_DESCONOCIDA followed by LIMITE_CATEGORIA), so the alert list
is not of the form age-alert, then a single MONEDA_DESCONOCIDA-or-
LIMITE_CATEGORIA alert, then the cost-center alerts. -/
theorem claim_C10_counterexample :
    (validar_gasto gastoDobleAlerta 0).alertas.map Alerta.codigo =
      ["MONEDA_DESCONOCIDA", "LIMITE_CATEGORIA"] ∧
    ¬(((validar_gasto gastoDobleAlerta 0).alertas.filter
        (fun a => a.codigo = "MONEDA_DESCONOCIDA" ∨ a.codigo = "LIMITE_CATEGORIA")).length ≤ 1) := by
  refine ⟨by decide, by decide⟩

/-- Claim C10 as amended: the alert list is always the concatenation, in rule
order, of at most one LIMITE_ANTIGUEDAD alert, at most one MONEDA_DESCONOCIDA
alert, at most one LIMITE_CATEGORIA alert, and one POLITICA_CENTRO_COSTO
alert per matching prohibition entry in policy-list order. -/
theorem claim_C10_orden_alertas (g : Gasto) (t : Int) :
    ∃ a b c : List Alerta,
      (validar_gasto g t).alertas =
        a ++ (b ++ c) ++
          ((POLITICA.reglas_centro_costo.filter
            (fun r => decide (g.empleado.cost_center = r.cost_center ∧
              g.categoria = r.categoria_prohibida))).map
            (fun r => alertaCentroCosto r.cost_center g.categoria)) ∧
      (∀ x ∈ a, x.codigo = "LIMITE_ANTIGUEDAD") ∧ a.length ≤ 1 ∧
      (∀ x ∈ b, x.codigo = "MONEDA_DESCONOCIDA") ∧ b.length ≤ 1 ∧
      (∀ x ∈ c, x.codigo = "LIMITE_CATEGORIA") ∧ c.length ≤ 1 := by
  have halertas : (validar_gasto g t).alertas =
      (regla_antiguedad g t).2 ++ (regla_categoria g).2 ++ (regla_centro_costo g).2 := by
    simp [validar_gasto, reglas_sugerencias]
  by_cases h1 : g.moneda ≠ POLITICA.moneda_base
  · cases h2 : tasas_conversion.lookup g.moneda with
    | none =>
      refine ⟨(regla_antiguedad g t).2, [alertaMonedaDesconocida g.moneda],
        (chequeo_categoria g.categoria g.monto).2, ?_,
        fun x hx => regla_antiguedad_codigos g t x hx, regla_antiguedad_len g t,
        by simp [alertaMonedaDesconocida], by simp,
        fun x hx => chequeo_categoria_codigos g.categoria g.monto x hx,
        chequeo_categoria_len g.categoria g.monto⟩
      rw [halertas, regla_centro_costo_alertas]
      have : (regla_categoria g).2 =
          alertaMonedaDesconocida g.moneda :: (chequeo_categoria g.categoria g.monto).2 := by
        simp only [regla_categoria, h2]
        rw [if_pos h1]
      rw [this]
      simp
    | some tasa =>
      refine ⟨(regla_antiguedad g t).2, [],
        (chequeo_categoria g.categoria (g.monto * tasa)).2, ?_,
        fun x hx => regla_antiguedad_codigos g t x hx, regla_antiguedad_len g t,
        by simp, by simp,
        fun x hx => chequeo_categoria_codigos g.categoria (g.monto * tasa) x hx,
        chequeo_categoria_len g.categoria (g.monto * tasa)⟩
      rw [halertas, regla_centro_costo_alertas]
      have : (regla_categoria g).2 = (chequeo_categoria g.categoria (g.monto * tasa)).2 := by
        simp only [regla_categoria, h2]
        rw [if_pos h1]
      rw [this]
      simp
  · refine ⟨(regla_antiguedad g t).2, [],
      (chequeo_categoria g.categoria g.monto).2, ?_,
      fun x hx => regla_antiguedad_codigos g t x hx, regla_antiguedad_len g t,
      by simp, by simp,
      fun x hx => chequeo_categoria_codigos g.categoria g.monto x hx,
      chequeo_categoria_len g.categoria g.monto⟩
    rw [halertas, regla_centro_costo_alertas]
    have : (regla_categoria g).2 = (chequeo_categoria g.categoria g.monto).2 := by
      simp only [regla_categoria]
      rw [if_neg h1]
    rw [this]
    simp

/-- Witness for the amended C10 at the concrete XYZ/120/food expense. -/
theorem claim_C10_orden_alertas_witness :
    ∃ a b c : List Alerta,
      (validar_gasto gastoDobleAlerta 0).alertas =
        a ++ (b ++ c) ++
          ((POLITICA.reglas_centro_costo.filter
            (fun r => decide (gastoDobleAlerta.empleado.cost_center = r.cost_center ∧
              gastoDobleAlerta.categoria = r.categoria_prohibida))).map
            (fun r => alertaCentroCosto r.cost_center gastoDobleAlerta.categoria)) ∧
      (∀ x ∈ a, x.codigo = "LIMITE_ANTIGUEDAD") ∧ a.length ≤ 1 ∧
      (∀ x ∈ b, x.codigo = "MONEDA_DESCONOCIDA") ∧ b.length ≤ 1 ∧
      (∀ x ∈ c, x.codigo = "LIMITE_CATEGORIA") ∧ c.length ≤ 1 :=
  claim_C10_orden_alertas gastoDobleAlerta 0

lemma entrada_fecha_fst (fetch : Int → List String → Option (List (String × ℚ)))
    (needs : Int → List String) (d : Int) : (entrada_fecha fetch needs d).1 = d := by
  simp only [entrada_fecha]
  cases fetch d ((needs d).insertionSort (· ≤ ·)) <;> rfl

lemma fetch_foldl_spec (fetch : Int → List String → Option (List (String × ℚ)))
    (needs : Int → List String) :
    ∀ (ds : List Int) (acc : List (Int × List (String × ℚ)) × Nat),
      ds.foldl
        (fun acc d =>
          if (needs d).isEmpty then acc
          else (acc.1 ++ [entrada_fecha fetch needs d], acc.2 + 1)) acc =
        (acc.1 ++ (ds.filter (fun d => !(needs d).isEmpty)).map (entrada_fecha fetch needs),
          acc.2 + (ds.filter (fun d => !(needs d).isEmpty)).length) := by
  intro ds
  induction ds with
  | nil => intro acc; simp
  | cons d ds ih =>
    intro acc
    simp only [List.foldl_cons, List.filter_cons]
    by_cases h : (needs d).isEmpty
    · rw [if_pos h]
      simp only [h, Bool.not_true, if_neg (by simp : ¬(false = true))]
      rw [ih acc]
    · rw [if_neg h]
      have hb : (!(needs d).isEmpty) = true := by simp [h]
      simp only [hb, if_pos]
      rw [ih]
      simp [List.append_assoc]
      omega

lemma fetch_resultado (fetch : Int → List String → Option (List (String × ℚ)))
    (fechas : List Int) (needs : Int → List String) :
    fetch_tipos_cambio_agrupados_fecha fetch fechas needs =
      (((fechas.insertionSort (· ≤ ·)).filter (fun d => !(needs d).isEmpty)).map
          (entrada_fecha fetch needs),
        ((fechas.insertionSort (· ≤ ·)).filter (fun d => !(needs d).isEmpty)).length) := by
  unfold fetch_tipos_cambio_agrupados_fecha
  rw [fetch_foldl_spec]
  simp

/-- Claim C5: the resolver iterates the distinct dates ascending (the result
table's dates are sorted), issues exactly one lookup per date with a
non-empty currency set (the request count is the number of such dates), on a
lookup failure records an empty rate set for that date and keeps going, and
performs zero lookups for a batch whose records are all in the base
currency. -/
theorem claim_C5_rate_resolver (fetch : Int → List String → Option (List (String × ℚ)))
    (fechas : List Int) (needs : Int → List String) (gastos : List Gasto) :
    (fetch_tipos_cambio_agrupados_fecha fetch fechas needs).2 =
      (fechas.filter (fun d => !(needs d).isEmpty)).length ∧
    List.Sorted (· ≤ ·)
      ((fetch_tipos_cambio_agrupados_fecha fetch fechas needs).1.map Prod.fst) ∧
    (∀ d ∈ fechas, (needs d) ≠ [] →
      fetch d ((needs d).insertionSort (· ≤ ·)) = none →
      (d, ([] : List (String × ℚ))) ∈
        (fetch_tipos_cambio_agrupados_fecha fetch fechas needs).1) ∧
    ((∀ gs ∈ gastos, gs.moneda = "USD") →
      fetch_tipos_cambio_agrupados_fecha fetch (fechas_no_usd gastos)
        (monedas_no_usd gastos) = ([], 0)) := by
  refine ⟨?_, ?_, ?_, ?_⟩
  · rw [fetch_resultado]
    exact ((List.perm_insertionSort (· ≤ ·) fechas).filter _).length_eq
  · rw [fetch_resultado]
    have hmap : (((fechas.insertionSort (· ≤ ·)).filter (fun d => !(needs d).isEmpty)).map
        (entrada_fecha fetch needs)).map Prod.fst =
        (fechas.insertionSort (· ≤ ·)).filter (fun d => !(needs d).isEmpty) := by
      rw [List.map_map]
      have := List.map_congr_left
        (f := Prod.fst ∘ entrada_fecha fetch needs) (g := id)
        (l := (fechas.insertionSort (· ≤ ·)).filter (fun d => !(needs d).isEmpty))
        (fun d _ => entrada_fecha_fst fetch needs d)
      rw [this, List.map_id]
    rw [hmap]
    exact (List.sorted_insertionSort (· ≤ ·) fechas).filter _
  · intro d hd hne hfail
    rw [fetch_resultado]
    have hmem : d ∈ (fechas.insertionSort (· ≤ ·)).filter (fun d => !(needs d).isEmpty) := by
      rw [List.mem_filter]
      refine ⟨?_, by simpa [List.isEmpty_iff] using hne⟩
      rw [(List.perm_insertionSort (· ≤ ·) fechas).mem_iff]
      exact hd
    have hent : entrada_fecha fetch needs d = (d, []) := by
      simp only [entrada_fecha]
      rw [hfail]
    have hm2 := List.mem_map_of_mem (entrada_fecha fetch needs) hmem
    rw [hent] at hm2
    exact hm2
  · intro husd
    have hvacio : fechas_no_usd gastos = [] := by
      have : gastos.filter es_no_usd = [] := by
        rw [List.filter_eq_nil_iff]
        intro gs hgs
        simp [es_no_usd, husd gs hgs]
      simp [fechas_no_usd, this]
    rw [hvacio]
    rfl

/-- Witness for C5: three dates, one with an empty currency set, all lookups
failing, plus a base-currency-only batch. -/
theorem claim_C5_rate_resolver_witness :
    (fetch_tipos_cambio_agrupados_fecha (fun _ _ => none) [3, 1, 2]
      (fun d => if d = 2 then [] else ["CLP"])).2 =
      (([3, 1, 2] : List Int).filter
        (fun d => !((if d = 2 then ([] : List String) else ["CLP"])).isEmpty)).length ∧
    ((3 : Int), ([] : List (String × ℚ))) ∈
      (fetch_tipos_cambio_agrupados_fecha (fun _ _ => none) [3, 1, 2]
        (fun d => if d = 2 then [] else ["CLP"])).1 ∧
    fetch_tipos_cambio_agrupados_fecha (fun _ _ => none) (fechas_no_usd [gastoUSD])
      (monedas_no_usd [gastoUSD]) = ([], 0) := by
  have h := claim_C5_rate_resolver (fun _ _ => none) [3, 1, 2]
    (fun d => if d = 2 then [] else ["CLP"]) [gastoUSD]
  refine ⟨h.1, h.2.2.1 3 (by decide) (by decide) rfl, h.2.2.2 ?_⟩
  intro gs hgs
  simp only [List.mem_singleton] at hgs
  subst hgs
  rfl

/-- Counterexample to claim C7 as stated: the amount 0.10 — ten cents — is
not exactly representable in the binary64 `monto` field (`monto: float`), so
amounts are not kept as arbitrary-precision decimals throughout. -/
theorem claim_C7_counterexample : ¬ float64Exacto ((1 : ℚ) / 10) := by
  rintro ⟨m, e, _, heq⟩
  rcases le_or_lt 0 e with he | he
  · have h2 : (2 : ℚ) ^ e = (2 : ℚ) ^ e.toNat := by
      rw [← zpow_natCast (2 : ℚ) e.toNat, Int.toNat_of_nonneg he]
    rw [h2] at heq
    have hcast : ((m * 2 ^ e.toNat : Int) : ℚ) = (1 : ℚ) / 10 := by
      push_cast
      rw [← heq]
    have hden := congrArg Rat.den hcast
    rw [Rat.intCast_den] at hden
    norm_num at hden
  · set k := (-e).toNat with hk
    have h2 : (2 : ℚ) ^ e = ((2 : ℚ) ^ k)⁻¹ := by
      rw [hk]
      rw [← zpow_natCast (2 : ℚ) (-e).toNat, Int.toNat_of_nonneg (by omega)]
      rw [← zpow_neg]
      ring_nf
    rw [h2] at heq
    have hpow : ((2 : ℚ) ^ k) ≠ 0 := by positivity
    have hZ : ((2 ^ k : Int) : ℚ) = ((10 * m : Int) : ℚ) := by
      push_cast
      field_simp at heq
      linarith
    have hZ2 : (2 : Int) ^ k = 10 * m := by exact_mod_cast hZ
    have h5 : (5 : Int) ∣ 2 ^ k := ⟨2 * m, by linarith⟩
    have hp : Prime (5 : Int) := by
      rw [Int.prime_iff_natAbs_prime]
      norm_num
    have := hp.dvd_of_dvd_pow h5
    norm_num at this

/-- Claim C7 as amended: amounts are parsed as decimals but stored through
the binary64 `monto` field, which holds integer amounts of magnitude below
2^53 exactly while non-dyadic decimal fractions such as 0.10 are not exact. -/
theorem claim_C7_monto_float (n : Int) (h : n.natAbs < 2 ^ 53) :
    float64Exacto (n : ℚ) :=
  ⟨n, 0, h, by simp⟩

/-- Witness for the amended C7 at the integer amount 100. -/
theorem claim_C7_monto_float_witness : float64Exacto ((100 : Int) : ℚ) :=
  claim_C7_monto_float 100 (by norm_num)
